import Mathlib

/-!
Banking service: accounts, account creation and the funds transfer.

A shallow embedding of `models/models.go` and `controllers/controllers.go`.

Modelling decisions, all taken from the source:

* `primitive.ObjectID` (twelve bytes) is the natural number those bytes spell
  in base 256; the zero value is `0`.
* `float64` is IEEE-754 binary64 with its special values: a sign, a significand
  and a binary exponent, or an infinity, or NaN. `+` and `-` round to nearest,
  ties to even, overflow to an infinity; `<` and `<=` are false on NaN.
* The `account` collection is the list of its documents in natural order.
  `FindOne` returns the first match, `UpdateOne` rewrites the first match,
  `InsertOne` appends.
* A `*Secret` is an `Option Secret`; `nil` is `none`.
* The database driver can fail at each call. Which calls fail is an input of
  the model (`Faults`, `CreateFaults`), so that every error branch of the
  source is reachable.
* `session.WithTransaction` runs the callback on the session's view of the
  collection and keeps that view only when the callback returns no error and
  the commit goes through; otherwise the transaction is aborted and the
  collection is what it was.
-/

namespace Banking

/-! ## The type float64 -/

/-- The Go type `float64`. `finite neg m e` is the number `(-1)^neg * m * 2^e`;
a `float64` has `m < 2^53`, `-1074 ≤ e ≤ 971`, and `2^52 ≤ m` unless `e = -1074`.
Both zeros are there: `finite false 0 (-1074)` and `finite true 0 (-1074)`. -/
inductive Float64 where
  | finite (neg : Bool) (m : Nat) (e : Int)
  | inf (neg : Bool)
  | nan
deriving DecidableEq, Repr

namespace Float64

/-- The number of binary digits of `n`, by halving at most `fuel` times. -/
def bitsAux : Nat → Nat → Nat
  | 0, _ => 0
  | fuel + 1, n => if n = 0 then 0 else bitsAux fuel (n / 2) + 1

/-- The number of binary digits of `n`. -/
def bitLength (n : Nat) : Nat := bitsAux n n

/-- The integer nearest to `n / 2^k`, ties to even. -/
def roundShift (n k : Nat) : Nat :=
  let q := n / 2 ^ k
  let r := n % 2 ^ k
  let half := 2 ^ (k - 1)
  if k = 0 then n
  else if half < r ∨ (r = half ∧ q % 2 = 1) then q + 1 else q

/-- The `float64` nearest to `(-1)^neg * n * 2^e`: 53 significant digits, the
exponent not below -1074, ties to even, an infinity past the largest finite
value. -/
def round (neg : Bool) (n : Nat) (e : Int) : Float64 :=
  if n = 0 then finite neg 0 (-1074) else
  let e1 : Int := max (e + (bitLength n : Nat) - 53) (-1074)
  let m := if e1 ≤ e then n * 2 ^ (e - e1).toNat else roundShift n (e1 - e).toNat
  let m2 := if m = 2 ^ 53 then 2 ^ 52 else m
  let e2 := if m = 2 ^ 53 then e1 + 1 else e1
  if 971 < e2 then inf neg else finite neg m2 e2

/-- The unary minus of `float64`. -/
def neg : Float64 → Float64
  | finite s m e => finite (!s) m e
  | inf s => inf (!s)
  | nan => nan

/-- The integer `(-1)^s * m * 2^(e - e0)`, for `e0 ≤ e`. -/
def scaled (s : Bool) (m : Nat) (e e0 : Int) : Int :=
  if s then -((m * 2 ^ (e - e0).toNat : Nat) : Int) else ((m * 2 ^ (e - e0).toNat : Nat) : Int)

/-- The operator `+` of `float64`: the exact sum, rounded. An exact sum of zero
is `-0` only when both operands are negative. -/
def add : Float64 → Float64 → Float64
  | nan, _ => nan
  | _, nan => nan
  | inf s, inf t => if s = t then inf s else nan
  | inf s, finite _ _ _ => inf s
  | finite _ _ _, inf t => inf t
  | finite s1 m1 e1, finite s2 m2 e2 =>
    let e0 := min e1 e2
    let sum := scaled s1 m1 e1 e0 + scaled s2 m2 e2 e0
    if sum = 0 then finite (s1 && s2) 0 (-1074)
    else round (decide (sum < 0)) sum.natAbs e0

/-- The operator `-` of `float64`. -/
def sub (x y : Float64) : Float64 := add x (neg y)

/-- The operator `<` of `float64`. -/
def lt : Float64 → Float64 → Bool
  | nan, _ => false
  | _, nan => false
  | inf s, inf t => s && !t
  | inf s, finite _ _ _ => s
  | finite _ _ _, inf t => !t
  | finite s1 m1 e1, finite s2 m2 e2 =>
    decide (scaled s1 m1 e1 (min e1 e2) < scaled s2 m2 e2 (min e1 e2))

/-- The operator `<=` of `float64`. -/
def le : Float64 → Float64 → Bool
  | nan, _ => false
  | _, nan => false
  | inf s, inf t => s || !t
  | inf s, finite _ _ _ => s
  | finite _ _ _, inf t => !t
  | finite s1 m1 e1, finite s2 m2 e2 =>
    decide (scaled s1 m1 e1 (min e1 e2) ≤ scaled s2 m2 e2 (min e1 e2))

/-- The `float64` an integer literal denotes: the conversion `float64(n)`. -/
def ofInt (n : Int) : Float64 := round (decide (n < 0)) n.natAbs 0

end Float64

/-! ## models/models.go -/

/-- The type `primitive.ObjectID`. -/
abbrev ObjectID := Nat

/-- The method `ObjectID.IsZero`. -/
def ObjectID.IsZero (id : ObjectID) : Bool := id == 0

/-- The struct `models.Secret`. -/
structure Secret where
  NickName : String
  Password : String
deriving DecidableEq, Repr

/-- The struct `models.Account`. -/
structure Account where
  ID : ObjectID
  Name : String
  Balance : Float64
  Currency : String
  Security : Option Secret
deriving DecidableEq, Repr

/-- The struct `models.Payment`. -/
structure Payment where
  SenderID : ObjectID
  ReceiverID : ObjectID
  Amount : Float64
deriving DecidableEq, Repr

/-! ## The account collection -/

/-- The documents of `accountCollection`, in natural order. -/
abbrev Collection := List Account

/-- The call `FindOne(ctx, bson.M{"_id": id})`: the first document with that id,
`none` standing for `mongo.ErrNoDocuments`. -/
def findOneByID (c : Collection) (id : ObjectID) : Option Account :=
  c.find? (fun a => decide (a.ID = id))

/-- Whether a document matches the filter `bson.M{"security.nickname": nick}`. -/
def matchesNickName (nick : String) (a : Account) : Bool :=
  match a.Security with
  | some s => decide (s.NickName = nick)
  | none => false

/-- The call `FindOne(ctx, bson.M{"security.nickname": nick})`. -/
def findOneByNickName (c : Collection) (nick : String) : Option Account :=
  c.find? (matchesNickName nick)

/-- The call `UpdateOne(ctx, bson.M{"_id": id}, bson.M{"$set": bson.M{"balance": b}})`:
the first document with that id gets the balance `b`; with no such document
nothing changes and no error is reported. -/
def updateBalance : Collection → ObjectID → Float64 → Collection
  | [], _, _ => []
  | a :: rest, id, b =>
    if a.ID = id then { a with Balance := b } :: rest
    else a :: updateBalance rest id b

/-! ## processPayment -/

/-- Which driver calls of `processPayment` fail with a store error. -/
structure Faults where
  startSession : Bool
  findSender : Bool
  findReceiver : Bool
  updateSender : Bool
  updateReceiver : Bool
  commit : Bool
deriving DecidableEq, Repr

/-- A store on which every call goes through. -/
def noFaults : Faults :=
  ⟨false, false, false, false, false, false⟩

/-- The errors the transaction callback of `processPayment` returns. -/
inductive CallbackError where
  /-- The text "failed to find sender account: no documents in result". -/
  | senderNotFound
  /-- The text "failed to find sender account: %v" for another find error. -/
  | senderFindFailed
  /-- The text "failed to find receiver account: no documents in result". -/
  | receiverNotFound
  /-- The text "failed to find receiver account: %v" for another find error. -/
  | receiverFindFailed
  /-- The text "insufficient funds in sender account". -/
  | insufficientFunds
  /-- The text "failed to update sender balance: %v". -/
  | senderUpdateFailed
  /-- The text "failed to update receiver balance: %v". -/
  | receiverUpdateFailed
deriving DecidableEq, Repr

/-- What `session.WithTransaction` returns as error: the callback's error, or
the failure of the commit. -/
inductive TxError where
  | callback (e : CallbackError)
  | commit
deriving DecidableEq, Repr

/-- The errors of `processPayment`. -/
inductive PaymentError where
  /-- The text "failed to start session: %v". -/
  | startSession
  /-- The text "transaction failed: %v". -/
  | transactionFailed (e : TxError)
deriving DecidableEq, Repr

/-- The closure `callback` of `processPayment`, run on the session's view `c`
of the collection. It returns the view after the writes it made and the error
it returns to `WithTransaction`. -/
def callback (f : Faults) (payment : Payment) (c : Collection) :
    Collection × Option CallbackError :=
  if f.findSender then (c, some .senderFindFailed) else
  match findOneByID c payment.SenderID with
  | none => (c, some .senderNotFound)
  | some sender =>
    if f.findReceiver then (c, some .receiverFindFailed) else
    match findOneByID c payment.ReceiverID with
    | none => (c, some .receiverNotFound)
    | some receiver =>
      if sender.Balance.lt payment.Amount then (c, some .insufficientFunds) else
      let sender := { sender with Balance := sender.Balance.sub payment.Amount }
      let receiver := { receiver with Balance := receiver.Balance.add payment.Amount }
      if f.updateSender then (c, some .senderUpdateFailed) else
      let c1 := updateBalance c sender.ID sender.Balance
      if f.updateReceiver then (c1, some .receiverUpdateFailed) else
      let c2 := updateBalance c1 receiver.ID receiver.Balance
      (c2, none)

/-- The method `session.WithTransaction`: the callback's writes reach the
collection only when the callback returns no error and the commit succeeds. -/
def withTransaction (f : Faults) (cb : Collection → Collection × Option CallbackError)
    (c : Collection) : Collection × Option TxError :=
  match cb c with
  | (_, some e) => (c, some (.callback e))
  | (c', none) => if f.commit then (c, some .commit) else (c', none)

/-- The function `processPayment`: the collection after the call and the
error returned, `none` for `nil`. -/
def processPayment (f : Faults) (payment : Payment) (c : Collection) :
    Collection × Option PaymentError :=
  if f.startSession then (c, some .startSession) else
  match withTransaction f (callback f payment) c with
  | (c', some e) => (c', some (.transactionFailed e))
  | (c', none) => (c', none)

/-- The stored balance of the account with the given id. -/
def balanceOf (c : Collection) (id : ObjectID) : Option Float64 :=
  (findOneByID c id).map (fun a => a.Balance)

/-- An account with its balance blanked: every field but the balance. -/
def eraseBalance (a : Account) : Account := { a with Balance := .ofInt 0 }

/-! ## createAccount -/

/-- Which driver calls of `createAccount` fail with a store error. -/
structure CreateFaults where
  findNickName : Bool
  insertOne : Bool
deriving DecidableEq, Repr

/-- What `createAccount` takes from outside the program: the identifier
`primitive.NewObjectID()` returns, the result of
`bcrypt.GenerateFromPassword(password, bcrypt.DefaultCost)` (`none` for its
error), and the failures of the store. -/
structure Env where
  NewObjectID : ObjectID
  GenerateFromPassword : String → Option String
  faults : CreateFaults

/-- The errors of `createAccount`. -/
inductive CreateError where
  /-- The value of `fmt.Errorf("account with nickname %s already exists", nick)`. -/
  | nicknameExists (nick : String)
  /-- An error of the nickname lookup other than `mongo.ErrNoDocuments`. -/
  | findFailed
  /-- The error of `bcrypt.GenerateFromPassword`. -/
  | hashFailed
  /-- The write exception of `InsertOne` for an `_id` already in the collection
  (server error code 11000). -/
  | duplicateKey
  /-- Another error of `InsertOne`. -/
  | insertFailed
deriving DecidableEq, Repr

/-- The function `mongo.IsDuplicateKeyError`: it holds of server errors with a
duplicate-key code. An error built by `fmt.Errorf` is not a server error. -/
def IsDuplicateKeyError : CreateError → Bool
  | .duplicateKey => true
  | _ => false

/-- A Go call either returns or panics. -/
inductive Run (α : Type) where
  | panicked
  | returned (a : α)
deriving DecidableEq, Repr

/-- What a call of `createAccount` leaves behind: the error returned, the
collection, the document handed to `InsertOne` (when that call was reached), and
the `Secret` that the argument's `Security` pointer designates, which the
caller's copy of the account shares. -/
structure CreateResult where
  err : Option CreateError
  store : Collection
  inserted : Option Account
  secret : Secret
deriving DecidableEq, Repr

/-- The call `InsertOne(ctx, account)`: the `_id` index is unique. -/
def insertOne (f : CreateFaults) (c : Collection) (doc : Account) :
    Collection × Option CreateError :=
  if f.insertOne then (c, some .insertFailed)
  else if c.any (fun a => decide (a.ID = doc.ID)) then (c, some .duplicateKey)
  else (c ++ [doc], none)

/-- The function `createAccount`. Its argument is a copy of the caller's
struct: the assignment to `account.ID` stays in the copy, the assignment to
`account.Security.Password` goes through the pointer. -/
def createAccount (env : Env) (account : Account) (c : Collection) : Run CreateResult :=
  match account.Security with
  | none => .panicked
  | some sec =>
    if env.faults.findNickName then .returned ⟨some .findFailed, c, none, sec⟩ else
    match findOneByNickName c sec.NickName with
    | some _ => .returned ⟨some (.nicknameExists sec.NickName), c, none, sec⟩
    | none =>
      let id := if account.ID.IsZero then env.NewObjectID else account.ID
      match env.GenerateFromPassword sec.Password with
      | none => .returned ⟨some .hashFailed, c, none, sec⟩
      | some hashedPassword =>
        let sec := { sec with Password := hashedPassword }
        let doc := { account with ID := id, Security := some sec }
        match insertOne env.faults c doc with
        | (c', some e) => .returned ⟨some e, c', some doc, sec⟩
        | (c', none) => .returned ⟨none, c', some doc, sec⟩

/-! ## The HTTP handlers -/

/-- The constant `http.StatusOK`. -/
def StatusOK : Nat := 200
/-- The constant `http.StatusCreated`. -/
def StatusCreated : Nat := 201
/-- The constant `http.StatusBadRequest`. -/
def StatusBadRequest : Nat := 400
/-- The constant `http.StatusNotFound`. -/
def StatusNotFound : Nat := 404
/-- The constant `http.StatusMethodNotAllowed`. -/
def StatusMethodNotAllowed : Nat := 405
/-- The constant `http.StatusConflict`. -/
def StatusConflict : Nat := 409
/-- The constant `http.StatusInternalServerError`. -/
def StatusInternalServerError : Nat := 500
/-- The constant `http.MethodPost`. -/
def MethodPost : String := "POST"

/-- A request: its method and what `json.NewDecoder(r.Body).Decode` makes of
its body, `none` when decoding returns an error. -/
structure Request (α : Type) where
  Method : String
  Body : Option α

/-- What a handler writes as the response body. -/
inductive ResponseBody where
  | text (s : String)
  /-- The text `err.Error()` of an error of `createAccount`. -/
  | createError (e : CreateError)
  /-- The text `err.Error()` of an error of `processPayment`. -/
  | paymentError (e : PaymentError)
  /-- The JSON encoding of an account. -/
  | account (a : Account)
deriving DecidableEq, Repr

/-- A response: status code and body. -/
structure Response where
  status : Nat
  body : ResponseBody
deriving DecidableEq, Repr

/-- The function `CreateAccountHandler`: the collection after the request and
the response, or the panic of the handler. -/
def CreateAccountHandler (env : Env) (r : Request Account) (c : Collection) :
    Collection × Run Response :=
  if r.Method ≠ MethodPost then
    (c, .returned ⟨StatusMethodNotAllowed, .text "Invalid request method"⟩)
  else
  match r.Body with
  | none => (c, .returned ⟨StatusBadRequest, .text "Cannot parse JSON"⟩)
  | some account =>
    match createAccount env account c with
    | .panicked => (c, .panicked)
    | .returned res =>
      match res.err with
      | some err =>
        if IsDuplicateKeyError err then (res.store, .returned ⟨StatusConflict, .createError err⟩)
        else (res.store, .returned ⟨StatusInternalServerError, .createError err⟩)
      | none =>
        (res.store, .returned ⟨StatusCreated, .account { account with Security := some res.secret }⟩)

/-- The value of one hexadecimal digit, as `encoding/hex` reads it. -/
def fromHexChar (ch : Char) : Option Nat :=
  if '0' ≤ ch ∧ ch ≤ '9' then some (ch.toNat - '0'.toNat)
  else if 'a' ≤ ch ∧ ch ≤ 'f' then some (ch.toNat - 'a'.toNat + 10)
  else if 'A' ≤ ch ∧ ch ≤ 'F' then some (ch.toNat - 'A'.toNat + 10)
  else none

/-- The function `primitive.ObjectIDFromHex`: exactly 24 hexadecimal digits,
`none` for its error. -/
def ObjectIDFromHex (s : String) : Option ObjectID :=
  if s.utf8ByteSize ≠ 24 then none
  else s.toList.foldlM (fun acc ch => (fromHexChar ch).map (fun d => acc * 16 + d)) 0

/-- The anonymous struct `paymentRequest` of `PaymentHandler`. -/
structure PaymentRequest where
  SenderID : String
  ReceiverID : String
  Amount : Float64
deriving DecidableEq, Repr

/-- The function `PaymentHandler`: the collection after the request and the
response. -/
def PaymentHandler (f : Faults) (r : Request PaymentRequest) (c : Collection) :
    Collection × Response :=
  if r.Method ≠ MethodPost then (c, ⟨StatusMethodNotAllowed, .text "Invalid request method"⟩)
  else
  match r.Body with
  | none => (c, ⟨StatusBadRequest, .text "Cannot parse JSON"⟩)
  | some paymentRequest =>
    match ObjectIDFromHex paymentRequest.SenderID with
    | none => (c, ⟨StatusBadRequest, .text "Invalid SenderID format"⟩)
    | some senderID =>
      match ObjectIDFromHex paymentRequest.ReceiverID with
      | none => (c, ⟨StatusBadRequest, .text "Invalid ReceiverID format"⟩)
      | some receiverID =>
        let payment : Payment := ⟨senderID, receiverID, paymentRequest.Amount⟩
        match processPayment f payment c with
        | (c', some err) => (c', ⟨StatusInternalServerError, .paymentError err⟩)
        | (c', none) => (c', ⟨StatusOK, .text "Payment processed successfully"⟩)

/-! ## Sample data -/

/-- One account, id 1, balance 100. -/
def oneAccount : Collection := [⟨1, "A", .ofInt 100, "USD", none⟩]

/-- Two accounts with balance 0, ids 1 and 2. -/
def twoEmptyAccounts : Collection :=
  [⟨1, "A", .ofInt 0, "USD", none⟩, ⟨2, "B", .ofInt 0, "USD", none⟩]

/-- The accounts of the spec's scenario: A with 100, B with 0. -/
def scenario : Collection :=
  [⟨1, "A", .ofInt 100, "USD", none⟩, ⟨2, "B", .ofInt 0, "USD", none⟩]

/-- A collection holding one account, nickname "bob". -/
def bobOnly : Collection := [⟨1, "Bob", .ofInt 10, "USD", some ⟨"bob", "$2a$10$stored"⟩⟩]

/-- An environment with a working store, the fresh identifier 7 and a hash
function that always succeeds. -/
def sampleEnv : Env := ⟨7, fun _ => some "$2a$10$hashed", ⟨false, false⟩⟩

/-- A second account body with the nickname "bob". -/
def secondBob : Account := ⟨2, "Robert", .ofInt 5, "USD", some ⟨"bob", "secret"⟩⟩

/-- An account body without `_id`. -/
def annWithoutID : Account := ⟨0, "Ann", .ofInt 10, "USD", some ⟨"ann", "secret"⟩⟩

/-- An account body without `security`. -/
def annWithoutSecurity : Account := ⟨3, "Ann", .ofInt 10, "USD", none⟩

/-- A payment request between two well-formed ids. -/
def samplePaymentRequest : PaymentRequest :=
  ⟨"000000000000000000000001", "000000000000000000000002", .ofInt 5⟩

/-- The sum, in `float64`, of the stored balances of the accounts with the two
given ids. -/
def pairTotal (c : Collection) (sender receiver : ObjectID) : Option Float64 :=
  match balanceOf c sender, balanceOf c receiver with
  | some a, some b => some (a.add b)
  | _, _ => none

/-- The largest integer below which every integer is a `float64`: 2^53. -/
def twoPow53 : Float64 := .ofInt 9007199254740992

/-- The `float64` nearest to 0.1, which is 0x1.999999999999ap-4. -/
def oneTenth : Float64 := .finite false 7205759403792794 (-56)

/-- The `float64` nearest to 0.2, which is 0x1.999999999999ap-3. -/
def twoTenths : Float64 := .finite false 7205759403792794 (-55)

/-- Account 1 with balance 1 and account 2 with balance 2^53. -/
def largeReceiver : Collection :=
  [⟨1, "A", .ofInt 1, "USD", none⟩, ⟨2, "B", twoPow53, "USD", none⟩]

/-- A store on which only the update of the receiver's balance fails. -/
def receiverUpdateFails : Faults :=
  ⟨false, false, false, false, true, false⟩

/-! ## Facts about the collection -/

theorem findOneByID_ID {c : Collection} {id : ObjectID} {a : Account}
    (h : findOneByID c id = some a) : a.ID = id := by
  have := List.find?_some h
  simpa using this

theorem findOneByID_updateBalance_same {c : Collection} {id : ObjectID} {a : Account}
    (b : Float64) (h : findOneByID c id = some a) :
    findOneByID (updateBalance c id b) id = some { a with Balance := b } := by
  induction c with
  | nil => simp [findOneByID] at h
  | cons x rest ih =>
    unfold updateBalance
    by_cases hx : x.ID = id
    · have hxa : x = a := by simpa [findOneByID, List.find?, hx] using h
      subst hxa
      simp [findOneByID, List.find?, hx]
    · have hr : findOneByID rest id = some a := by
        simpa [findOneByID, List.find?, hx] using h
      have := ih hr
      simpa [findOneByID, List.find?, hx] using this

theorem findOneByID_updateBalance_other (c : Collection) {id id' : ObjectID}
    (b : Float64) (h : id' ≠ id) :
    findOneByID (updateBalance c id b) id' = findOneByID c id' := by
  induction c with
  | nil => rfl
  | cons x rest ih =>
    unfold updateBalance
    by_cases hx : x.ID = id
    · have hx' : ¬ x.ID = id' := fun e => h (e.symm.trans hx)
      rw [if_pos hx]
      simp [findOneByID, List.find?, hx']
    · rw [if_neg hx]
      by_cases hx' : x.ID = id'
      · simp [findOneByID, List.find?, hx']
      · simpa [findOneByID, List.find?, hx'] using ih

theorem updateBalance_map_eraseBalance (c : Collection) (id : ObjectID) (b : Float64) :
    (updateBalance c id b).map eraseBalance = c.map eraseBalance := by
  induction c with
  | nil => rfl
  | cons x rest ih =>
    unfold updateBalance
    by_cases hx : x.ID = id
    · simp [hx, eraseBalance]
    · simp [hx, ih]

theorem updateBalance_filter (c : Collection) (id : ObjectID) (b : Float64)
    (p : Account → Bool) (hp : ∀ a : Account, a.ID = id → p a = false) :
    (updateBalance c id b).filter p = c.filter p := by
  induction c with
  | nil => rfl
  | cons x rest ih =>
    unfold updateBalance
    by_cases hx : x.ID = id
    · have h1 : p x = false := hp x hx
      have h2 : p { x with Balance := b } = false := hp _ hx
      rw [if_pos hx, List.filter_cons_of_neg (by simp [h2]),
        List.filter_cons_of_neg (by simp [h1])]
    · rw [if_neg hx]
      simp [List.filter, ih]

theorem updateBalance_length (c : Collection) (id : ObjectID) (b : Float64) :
    (updateBalance c id b).length = c.length := by
  have := congrArg List.length (updateBalance_map_eraseBalance c id b)
  simpa using this

/-! ## Facts about processPayment -/

/-- A failed call leaves the collection as it was, whatever failed. -/
theorem processPayment_error_unchanged (f : Faults) (p : Payment) (c : Collection)
    (h : (processPayment f p c).2 ≠ none) : (processPayment f p c).1 = c := by
  unfold processPayment withTransaction at *
  by_cases hs : f.startSession = true
  · simp [hs]
  · simp only [hs] at h ⊢
    rcases hcb : callback f p c with ⟨c', _ | e⟩
    · by_cases hc : f.commit = true
      · simp [hc]
      · simp [hcb, hc] at h
    · simp

/-- What a successful call did: both accounts were found, the funds check
passed, and the collection is the result of the two balance updates. -/
theorem processPayment_success (f : Faults) (p : Payment) (c : Collection)
    (h : (processPayment f p c).2 = none) :
    ∃ s r, findOneByID c p.SenderID = some s ∧ findOneByID c p.ReceiverID = some r ∧
      s.Balance.lt p.Amount = false ∧
      (processPayment f p c).1 =
        updateBalance (updateBalance c p.SenderID (s.Balance.sub p.Amount))
          p.ReceiverID (r.Balance.add p.Amount) := by
  unfold processPayment withTransaction callback at *
  by_cases hs : f.startSession = true
  · simp [hs] at h
  by_cases h1 : f.findSender = true
  · simp [hs, h1] at h
  rcases hfs : findOneByID c p.SenderID with _ | s
  · simp [hs, h1, hfs] at h
  by_cases h2 : f.findReceiver = true
  · simp [hs, h1, hfs, h2] at h
  rcases hfr : findOneByID c p.ReceiverID with _ | r
  · simp [hs, h1, hfs, h2, hfr] at h
  by_cases hb : s.Balance.lt p.Amount = true
  · simp [hs, h1, hfs, h2, hfr, hb] at h
  by_cases h3 : f.updateSender = true
  · simp [hs, h1, hfs, h2, hfr, hb, h3] at h
  by_cases h4 : f.updateReceiver = true
  · simp [hs, h1, hfs, h2, hfr, hb, h3, h4] at h
  by_cases h5 : f.commit = true
  · simp [hs, h1, hfs, h2, hfr, hb, h3, h4, h5] at h
  refine ⟨s, r, rfl, rfl, by simpa using hb, ?_⟩
  have e1 := findOneByID_ID hfs
  have e2 := findOneByID_ID hfr
  simp [hs, h1, hfs, h2, hfr, hb, h3, h4, h5, e1, e2]

theorem mem_updateBalance {c : Collection} {id : ObjectID} {b : Float64} {a : Account}
    (h : a ∈ updateBalance c id b) : a ∈ c ∨ a.Balance = b := by
  induction c with
  | nil => simp [updateBalance] at h
  | cons x rest ih =>
    unfold updateBalance at h
    by_cases hx : x.ID = id
    · rw [if_pos hx] at h
      rcases List.mem_cons.1 h with h | h
      · right; rw [h]
      · left; exact List.mem_cons_of_mem _ h
    · rw [if_neg hx] at h
      rcases List.mem_cons.1 h with h | h
      · left; rw [h]; exact List.mem_cons_self _ _
      · rcases ih h with h | h
        · left; exact List.mem_cons_of_mem _ h
        · right; exact h

theorem findOneByID_mem {c : Collection} {id : ObjectID} {a : Account}
    (h : findOneByID c id = some a) : a ∈ c :=
  List.mem_of_find?_eq_some h

/-- A transfer from an account to itself that succeeds adds the amount to the
balance. -/
theorem processPayment_self_transfer (f : Faults) (p : Payment) (c : Collection)
    (hself : p.SenderID = p.ReceiverID) (h : (processPayment f p c).2 = none) :
    ∃ s, findOneByID c p.SenderID = some s ∧
      findOneByID (processPayment f p c).1 p.SenderID
        = some { s with Balance := s.Balance.add p.Amount } := by
  obtain ⟨s, r, hs, hr, -, hc⟩ := processPayment_success f p c h
  rw [← hself] at hr hc
  have hsr : s = r := Option.some.inj (hs.symm.trans hr)
  subst hsr
  refine ⟨s, hs, ?_⟩
  have h1 := findOneByID_updateBalance_same (s.Balance.sub p.Amount) hs
  have h2 := findOneByID_updateBalance_same (s.Balance.add p.Amount) h1
  rw [hc]
  simpa using h2

/-! ## Facts about float64 -/

namespace Float64

theorem le_zero_finite (s : Bool) (m : Nat) (e : Int) :
    le (ofInt 0) (finite s m e) = true ↔ s = false ∨ m = 0 := by
  have h0 : ofInt 0 = finite false 0 (-1074) := by decide
  rw [h0]
  cases s
  · simp [le, scaled]
  · simp only [le, scaled, decide_eq_true_eq]
    constructor
    · intro h
      right
      by_contra hm
      have hpos : 0 < m * 2 ^ (e - min (-1074) e).toNat :=
        Nat.mul_pos (Nat.pos_of_ne_zero hm) (Nat.pow_pos (by decide))
      have hcast : (0 : Int) < ((m * 2 ^ (e - min (-1074) e).toNat : Nat) : Int) :=
        Int.ofNat_lt.2 hpos
      have h2 : -((0 * 2 ^ (-1074 - min (-1074) e).toNat : Nat) : Int) = 0 := by simp
      simp only [Bool.false_eq_true, if_false, if_true] at h
      omega
    · intro h
      rcases h with h | h
      · simp at h
      · simp [h]

theorem le_zero_inf (s : Bool) : le (ofInt 0) (inf s) = true ↔ s = false := by
  have h0 : ofInt 0 = finite false 0 (-1074) := by decide
  rw [h0]
  cases s <;> simp [le]

theorem le_zero_nan : le (ofInt 0) nan = false := by
  have h0 : ofInt 0 = finite false 0 (-1074) := by decide
  rw [h0]
  rfl

theorem zero_le_round (n : Nat) (e : Int) : le (ofInt 0) (round false n e) = true := by
  unfold round
  simp only
  split_ifs <;> simp [le_zero_finite, le_zero_inf]

/-- The sum of two finite values is not below zero when the exact sum is not. -/
theorem zero_le_add_finite (s1 s2 : Bool) (m1 m2 : Nat) (e1 e2 : Int)
    (h : 0 ≤ scaled s1 m1 e1 (min e1 e2) + scaled s2 m2 e2 (min e1 e2)) :
    le (ofInt 0) (add (finite s1 m1 e1) (finite s2 m2 e2)) = true := by
  unfold add
  simp only
  by_cases h0 : scaled s1 m1 e1 (min e1 e2) + scaled s2 m2 e2 (min e1 e2) = 0
  · rw [if_pos h0, le_zero_finite]
    simp
  · rw [if_neg h0]
    have hlt : decide (scaled s1 m1 e1 (min e1 e2) + scaled s2 m2 e2 (min e1 e2) < 0) = false := by
      simpa using h
    rw [hlt]
    exact zero_le_round _ _

theorem zero_le_scaled {s : Bool} {m : Nat} {e : Int}
    (h : le (ofInt 0) (finite s m e) = true) (e0 : Int) : 0 ≤ scaled s m e e0 := by
  rw [le_zero_finite] at h
  rcases h with h | h
  · simp [scaled, h]
  · simp [scaled, h]

theorem scaled_not (s : Bool) (m : Nat) (e e0 : Int) :
    scaled (!s) m e e0 = - scaled s m e e0 := by
  cases s <;> simp [scaled]

/-- A sum of two values that are not below zero is not below zero. -/
theorem zero_le_add {x y : Float64} (hx : le (ofInt 0) x = true) (hy : le (ofInt 0) y = true) :
    le (ofInt 0) (add x y) = true := by
  cases x with
  | nan => simp [le_zero_nan] at hx
  | inf s =>
    cases y with
    | nan => simp [le_zero_nan] at hy
    | inf t =>
      rw [le_zero_inf] at hx hy
      subst hx; subst hy
      rw [show add (inf false) (inf false) = inf false from rfl, le_zero_inf]
    | finite t m e =>
      rw [show add (inf s) (finite t m e) = inf s from rfl]
      exact hx
  | finite s m e =>
    cases y with
    | nan => simp [le_zero_nan] at hy
    | inf t =>
      rw [show add (finite s m e) (inf t) = inf t from rfl]
      exact hy
    | finite t m2 e2 =>
      apply zero_le_add_finite
      exact Int.add_nonneg (zero_le_scaled hx _) (zero_le_scaled hy _)

/-- A difference `x - y` with `x` not below zero, `y` finite and `x < y` false is
not below zero. -/
theorem zero_le_sub {x : Float64} {s : Bool} {m : Nat} {e : Int}
    (hx : le (ofInt 0) x = true) (hlt : lt x (finite s m e) = false) :
    le (ofInt 0) (sub x (finite s m e)) = true := by
  cases x with
  | nan => simp [le_zero_nan] at hx
  | inf t =>
    rw [le_zero_inf] at hx
    subst hx
    rw [show sub (inf false) (finite s m e) = inf false from rfl, le_zero_inf]
  | finite t m1 e1 =>
    unfold sub neg
    apply zero_le_add_finite
    rw [scaled_not]
    have : ¬ scaled t m1 e1 (min e1 e) < scaled s m e (min e1 e) := by
      simpa [lt] using hlt
    omega

/-- Rounding to nearest, ties to even: 2^53 + 1 is 2^53, 2^53 + 3 is 2^53 + 4,
0.1 + 0.2 is 0x1.3333333333334p-2 (0.30000000000000004), and the largest finite
value added to itself is an infinity. -/
theorem add_rounds :
    add twoPow53 (ofInt 1) = twoPow53 ∧
    add twoPow53 (ofInt 3) = ofInt 9007199254740996 ∧
    add oneTenth twoTenths = finite false 5404319552844596 (-54) ∧
    add (finite false 9007199254740991 971) (finite false 9007199254740991 971) = inf false ∧
    sub (inf false) (inf false) = nan ∧ lt nan nan = false := by
  set_option maxRecDepth 8000 in decide

end Float64

/-! ## Properties of the transfer -/

/-- With a finite amount that is not below zero, balances that are all not
below zero stay so. -/
theorem processPayment_nonneg_of_nonneg_amount (f : Faults) (p : Payment) (c : Collection)
    (s : Bool) (m : Nat) (e : Int) (hfin : p.Amount = .finite s m e)
    (hamt : Float64.le (.ofInt 0) p.Amount = true)
    (hc : ∀ a ∈ c, Float64.le (.ofInt 0) a.Balance = true) :
    ∀ a ∈ (processPayment f p c).1, Float64.le (.ofInt 0) a.Balance = true := by
  by_cases h : (processPayment f p c).2 = none
  · obtain ⟨sn, r, hs, hr, hb, he⟩ := processPayment_success f p c h
    intro a ha
    rw [he] at ha
    have hs0 := hc sn (findOneByID_mem hs)
    have hr0 := hc r (findOneByID_mem hr)
    rcases mem_updateBalance ha with ha | ha
    · rcases mem_updateBalance ha with ha | ha
      · exact hc a ha
      · rw [ha, hfin]
        rw [hfin] at hb
        exact Float64.zero_le_sub hs0 hb
    · rw [ha]; exact Float64.zero_le_add hr0 hamt
  · rw [processPayment_error_unchanged f p c h]; exact hc

/-- C1, at the failing input. A transfer of 40 from account 1 (balance 100) to
itself succeeds and leaves the balance at 140: the sender's and the receiver's
balances add up to 200 before the call and to 280 after it. -/
theorem processPayment_self_transfer_creates_money :
    (processPayment noFaults ⟨1, 1, .ofInt 40⟩ oneAccount).2 = none ∧
    pairTotal oneAccount 1 1 = some (.ofInt 200) ∧
    pairTotal (processPayment noFaults ⟨1, 1, .ofInt 40⟩ oneAccount).1 1 1
      = some (.ofInt 280) ∧
    balanceOf oneAccount 1 = some (.ofInt 100) ∧
    balanceOf (processPayment noFaults ⟨1, 1, .ofInt 40⟩ oneAccount).1 1
      = some (.ofInt 140) := by
  decide

/-- C2. A successful transfer between two different ids leaves the sender with
its balance minus the amount and the receiver with its balance plus the amount,
both computed in `float64`, every other field of the two accounts as it was; an
account found under any other id is the one found before; no document is added
or removed, no document changes in a field other than the balance, and the
documents with other ids are the same documents. -/
theorem processPayment_effect_distinct (f : Faults) (p : Payment) (c : Collection)
    (hne : p.SenderID ≠ p.ReceiverID) (h : (processPayment f p c).2 = none) :
    ∃ s r, findOneByID c p.SenderID = some s ∧ findOneByID c p.ReceiverID = some r ∧
      findOneByID (processPayment f p c).1 p.SenderID
        = some { s with Balance := s.Balance.sub p.Amount } ∧
      findOneByID (processPayment f p c).1 p.ReceiverID
        = some { r with Balance := r.Balance.add p.Amount } ∧
      (∀ id, id ≠ p.SenderID → id ≠ p.ReceiverID →
        findOneByID (processPayment f p c).1 id = findOneByID c id) ∧
      (processPayment f p c).1.map eraseBalance = c.map eraseBalance ∧
      (processPayment f p c).1.filter
          (fun a => decide (a.ID ≠ p.SenderID ∧ a.ID ≠ p.ReceiverID))
        = c.filter (fun a => decide (a.ID ≠ p.SenderID ∧ a.ID ≠ p.ReceiverID)) := by
  obtain ⟨s, r, hs, hr, -, hc⟩ := processPayment_success f p c h
  have hr1 : findOneByID (updateBalance c p.SenderID (s.Balance.sub p.Amount)) p.ReceiverID
      = some r := by
    rw [findOneByID_updateBalance_other c _ (Ne.symm hne)]; exact hr
  refine ⟨s, r, hs, hr, ?_, ?_, ?_, ?_, ?_⟩
  · rw [hc, findOneByID_updateBalance_other _ _ hne]
    exact findOneByID_updateBalance_same _ hs
  · rw [hc]
    exact findOneByID_updateBalance_same _ hr1
  · intro id h1 h2
    rw [hc, findOneByID_updateBalance_other _ _ h2, findOneByID_updateBalance_other _ _ h1]
  · rw [hc, updateBalance_map_eraseBalance, updateBalance_map_eraseBalance]
  · rw [hc, updateBalance_filter _ _ _ _ (by intro a ha; simp [ha]),
      updateBalance_filter _ _ _ _ (by intro a ha; simp [ha])]

/-- C2, with rounding: 1 from A (balance 1) to B (balance 2^53). The transfer
succeeds, A holds 0, and B holds 2^53 again, since 2^53 + 1 is not a `float64`
and the sum rounds to even. -/
theorem processPayment_effect_distinct_witness :
    ((1 : ObjectID) ≠ 2 ∧ (processPayment noFaults ⟨1, 2, .ofInt 1⟩ largeReceiver).2 = none) ∧
    (∃ s r, findOneByID largeReceiver 1 = some s ∧ findOneByID largeReceiver 2 = some r ∧
      findOneByID (processPayment noFaults ⟨1, 2, .ofInt 1⟩ largeReceiver).1 1
        = some { s with Balance := s.Balance.sub (.ofInt 1) } ∧
      findOneByID (processPayment noFaults ⟨1, 2, .ofInt 1⟩ largeReceiver).1 2
        = some { r with Balance := r.Balance.add (.ofInt 1) } ∧
      (∀ id, id ≠ 1 → id ≠ 2 →
        findOneByID (processPayment noFaults ⟨1, 2, .ofInt 1⟩ largeReceiver).1 id
          = findOneByID largeReceiver id) ∧
      (processPayment noFaults ⟨1, 2, .ofInt 1⟩ largeReceiver).1.map eraseBalance
        = largeReceiver.map eraseBalance ∧
      (processPayment noFaults ⟨1, 2, .ofInt 1⟩ largeReceiver).1.filter
          (fun a => decide (a.ID ≠ 1 ∧ a.ID ≠ 2))
        = largeReceiver.filter (fun a => decide (a.ID ≠ 1 ∧ a.ID ≠ 2))) ∧
    processPayment noFaults ⟨1, 2, .ofInt 1⟩ largeReceiver
      = ([⟨1, "A", .ofInt 0, "USD", none⟩, ⟨2, "B", twoPow53, "USD", none⟩], none) :=
  have hall : processPayment noFaults ⟨1, 2, .ofInt 1⟩ largeReceiver
      = ([⟨1, "A", .ofInt 0, "USD", none⟩, ⟨2, "B", twoPow53, "USD", none⟩], none) := by
    set_option maxRecDepth 8000 in decide
  have hok : (processPayment noFaults ⟨1, 2, .ofInt 1⟩ largeReceiver).2 = none := by
    rw [hall]
  ⟨⟨by decide, hok⟩,
    processPayment_effect_distinct noFaults ⟨1, 2, .ofInt 1⟩ largeReceiver (by decide) hok,
    hall⟩

/-- C3 as stated fails. The sender (id 1) holds 100 and the amount is 500, yet
the call does not fail with the insufficient-funds error: the receiver (id 2) is
not in the collection, and that check comes first. -/
theorem processPayment_receiver_check_precedes_funds_check :
    balanceOf oneAccount 1 = some (.ofInt 100) ∧
    Float64.lt (.ofInt 100) (.ofInt 500) = true ∧
    processPayment noFaults ⟨1, 2, .ofInt 500⟩ oneAccount
      = (oneAccount, some (.transactionFailed (.callback .receiverNotFound))) ∧
    (processPayment noFaults ⟨1, 2, .ofInt 500⟩ oneAccount).2
      ≠ some (.transactionFailed (.callback .insufficientFunds)) := by
  decide

/-- C3, amended. When both accounts are in the collection, the session starts
and the two reads succeed, an amount greater than the sender's balance makes the
call fail with the insufficient-funds error, and the collection, so both
balances, is unchanged. -/
theorem processPayment_insufficient_funds (f : Faults) (p : Payment) (c : Collection)
    (s r : Account) (h0 : f.startSession = false) (h1 : f.findSender = false)
    (h2 : f.findReceiver = false) (hs : findOneByID c p.SenderID = some s)
    (hr : findOneByID c p.ReceiverID = some r) (hlt : s.Balance.lt p.Amount = true) :
    processPayment f p c = (c, some (.transactionFailed (.callback .insufficientFunds))) ∧
    balanceOf (processPayment f p c).1 p.SenderID = some s.Balance ∧
    balanceOf (processPayment f p c).1 p.ReceiverID = some r.Balance := by
  have h : processPayment f p c
      = (c, some (.transactionFailed (.callback .insufficientFunds))) := by
    simp [processPayment, withTransaction, callback, h0, h1, h2, hs, hr, hlt]
  refine ⟨h, ?_, ?_⟩
  · rw [h]; simp [balanceOf, hs]
  · rw [h]; simp [balanceOf, hr]

/-- C3 amended, on the spec's scenario: 1000 from A (100) to B (0). -/
theorem processPayment_insufficient_funds_witness :
    (noFaults.startSession = false ∧ noFaults.findSender = false ∧
      noFaults.findReceiver = false ∧
      findOneByID scenario 1 = some ⟨1, "A", .ofInt 100, "USD", none⟩ ∧
      findOneByID scenario 2 = some ⟨2, "B", .ofInt 0, "USD", none⟩ ∧
      Float64.lt (.ofInt 100) (.ofInt 1000) = true) ∧
    processPayment noFaults ⟨1, 2, .ofInt 1000⟩ scenario
      = (scenario, some (.transactionFailed (.callback .insufficientFunds))) ∧
    balanceOf (processPayment noFaults ⟨1, 2, .ofInt 1000⟩ scenario).1 1
      = some (.ofInt 100) ∧
    balanceOf (processPayment noFaults ⟨1, 2, .ofInt 1000⟩ scenario).1 2
      = some (.ofInt 0) :=
  have hlt : Float64.lt (.ofInt 100) (.ofInt 1000) = true := by decide
  ⟨⟨rfl, rfl, rfl, rfl, rfl, hlt⟩,
    processPayment_insufficient_funds noFaults ⟨1, 2, .ofInt 1000⟩ scenario
      ⟨1, "A", .ofInt 100, "USD", none⟩ ⟨2, "B", .ofInt 0, "USD", none⟩
      rfl rfl rfl rfl rfl hlt⟩

/-- C4, at the failing input. Both accounts hold 0. A transfer of -5 from
account 1 to account 2 passes the funds check (0 is not below -5), succeeds, and
leaves account 2 with the balance -5. -/
theorem processPayment_negative_amount_overdraws_receiver :
    (∀ a ∈ twoEmptyAccounts, Float64.le (.ofInt 0) a.Balance = true) ∧
    processPayment noFaults ⟨1, 2, .ofInt (-5)⟩ twoEmptyAccounts
      = ([⟨1, "A", .ofInt 5, "USD", none⟩, ⟨2, "B", .ofInt (-5), "USD", none⟩], none) ∧
    balanceOf (processPayment noFaults ⟨1, 2, .ofInt (-5)⟩ twoEmptyAccounts).1 2
      = some (.ofInt (-5)) ∧
    ¬ ∀ a ∈ (processPayment noFaults ⟨1, 2, .ofInt (-5)⟩ twoEmptyAccounts).1,
        Float64.le (.ofInt 0) a.Balance = true := by
  have h : processPayment noFaults ⟨1, 2, .ofInt (-5)⟩ twoEmptyAccounts
      = ([⟨1, "A", .ofInt 5, "USD", none⟩, ⟨2, "B", .ofInt (-5), "USD", none⟩], none) := by
    set_option exponentiation.threshold 2200 in set_option maxRecDepth 8000 in decide
  refine ⟨by decide, h, ?_, ?_⟩
  · rw [h]; decide
  · rw [h]
    set_option exponentiation.threshold 2200 in set_option maxRecDepth 8000 in decide

/-- C5. When the session starts and the read of the sender succeeds: if the
sender is not in the collection the call fails with the sender-not-found error,
whether or not the receiver is there; if the sender is there, the read of the
receiver succeeds and the receiver is not in the collection, the call fails with
the receiver-not-found error, whatever the sender's balance. In both cases the
collection is unchanged. -/
theorem processPayment_not_found (f : Faults) (p : Payment) (c : Collection)
    (h0 : f.startSession = false) (h1 : f.findSender = false) :
    (findOneByID c p.SenderID = none →
      processPayment f p c = (c, some (.transactionFailed (.callback .senderNotFound)))) ∧
    (∀ s, findOneByID c p.SenderID = some s → f.findReceiver = false →
      findOneByID c p.ReceiverID = none →
      processPayment f p c = (c, some (.transactionFailed (.callback .receiverNotFound)))) := by
  constructor
  · intro hs
    simp [processPayment, withTransaction, callback, h0, h1, hs]
  · intro s hs h2 hr
    simp [processPayment, withTransaction, callback, h0, h1, h2, hs, hr]

/-- C5, on the collection with the single account 1 (balance 100): a payment
from 3 to 4, both absent, and a payment of 500 from 1 to the absent 2. -/
theorem processPayment_not_found_witness :
    (noFaults.startSession = false ∧ noFaults.findSender = false) ∧
    (findOneByID oneAccount 3 = none ∧ findOneByID oneAccount 4 = none ∧
      processPayment noFaults ⟨3, 4, .ofInt 5⟩ oneAccount
        = (oneAccount, some (.transactionFailed (.callback .senderNotFound)))) ∧
    (findOneByID oneAccount 1 = some ⟨1, "A", .ofInt 100, "USD", none⟩ ∧
      findOneByID oneAccount 2 = none ∧
      processPayment noFaults ⟨1, 2, .ofInt 500⟩ oneAccount
        = (oneAccount, some (.transactionFailed (.callback .receiverNotFound)))) :=
  ⟨⟨rfl, rfl⟩,
    ⟨rfl, rfl, (processPayment_not_found noFaults ⟨3, 4, .ofInt 5⟩ oneAccount rfl rfl).1 rfl⟩,
    ⟨rfl, rfl,
      (processPayment_not_found noFaults ⟨1, 2, .ofInt 500⟩ oneAccount rfl rfl).2
        _ rfl rfl rfl⟩⟩

/-- C6. When the payment passes the existence and balance checks and the update
of the sender's balance goes through, a failing update of the receiver's balance
makes the callback return its error with the sender's leg written in the
session; the call returns that error as a failed transaction and the collection
is the one before the call, so both balances are unchanged. -/
theorem processPayment_receiver_update_fails (f : Faults) (p : Payment) (c : Collection)
    (s r : Account) (h0 : f.startSession = false) (h1 : f.findSender = false)
    (h2 : f.findReceiver = false) (h3 : f.updateSender = false)
    (h4 : f.updateReceiver = true) (hs : findOneByID c p.SenderID = some s)
    (hr : findOneByID c p.ReceiverID = some r) (hb : s.Balance.lt p.Amount = false) :
    callback f p c
      = (updateBalance c p.SenderID (s.Balance.sub p.Amount), some .receiverUpdateFailed) ∧
    processPayment f p c
      = (c, some (.transactionFailed (.callback .receiverUpdateFailed))) ∧
    balanceOf (processPayment f p c).1 p.SenderID = some s.Balance ∧
    balanceOf (processPayment f p c).1 p.ReceiverID = some r.Balance := by
  have e1 := findOneByID_ID hs
  have hcb : callback f p c
      = (updateBalance c p.SenderID (s.Balance.sub p.Amount), some .receiverUpdateFailed) := by
    simp [callback, h1, h2, h3, h4, hs, hr, hb, e1]
  have h : processPayment f p c
      = (c, some (.transactionFailed (.callback .receiverUpdateFailed))) := by
    simp [processPayment, withTransaction, hcb, h0]
  refine ⟨hcb, h, ?_, ?_⟩
  · rw [h]; simp [balanceOf, hs]
  · rw [h]; simp [balanceOf, hr]

/-- C6, on the spec's scenario: 40 from A (100) to B (0) with the receiver's
update failing. In the session A holds 60; after the call A holds 100 and B 0. -/
theorem processPayment_receiver_update_fails_witness :
    (receiverUpdateFails.startSession = false ∧ receiverUpdateFails.findSender = false ∧
      receiverUpdateFails.findReceiver = false ∧ receiverUpdateFails.updateSender = false ∧
      receiverUpdateFails.updateReceiver = true ∧
      findOneByID scenario 1 = some ⟨1, "A", .ofInt 100, "USD", none⟩ ∧
      findOneByID scenario 2 = some ⟨2, "B", .ofInt 0, "USD", none⟩ ∧
      Float64.lt (.ofInt 100) (.ofInt 40) = false) ∧
    callback receiverUpdateFails ⟨1, 2, .ofInt 40⟩ scenario
      = (updateBalance scenario 1 (Float64.sub (.ofInt 100) (.ofInt 40)),
          some .receiverUpdateFailed) ∧
    processPayment receiverUpdateFails ⟨1, 2, .ofInt 40⟩ scenario
      = (scenario, some (.transactionFailed (.callback .receiverUpdateFailed))) ∧
    balanceOf (processPayment receiverUpdateFails ⟨1, 2, .ofInt 40⟩ scenario).1 1
      = some (.ofInt 100) ∧
    balanceOf (processPayment receiverUpdateFails ⟨1, 2, .ofInt 40⟩ scenario).1 2
      = some (.ofInt 0) :=
  have hb : Float64.lt (.ofInt 100) (.ofInt 40) = false := by decide
  ⟨⟨rfl, rfl, rfl, rfl, rfl, rfl, rfl, hb⟩,
    processPayment_receiver_update_fails receiverUpdateFails ⟨1, 2, .ofInt 40⟩ scenario
      ⟨1, "A", .ofInt 100, "USD", none⟩ ⟨2, "B", .ofInt 0, "USD", none⟩
      rfl rfl rfl rfl rfl rfl rfl hb⟩

/-! ## Properties of the HTTP handlers -/

/-- A nickname already in the collection: when the lookup itself succeeds,
`CreateAccountHandler` answers 500 with the text of the nickname error and the
collection is unchanged. -/
theorem CreateAccountHandler_duplicate_nickname (env : Env) (r : Request Account)
    (c : Collection) (account x : Account) (sec : Secret) (hm : r.Method = MethodPost)
    (hbody : r.Body = some account) (hsec : account.Security = some sec)
    (hfind : env.faults.findNickName = false)
    (hdup : findOneByNickName c sec.NickName = some x) :
    CreateAccountHandler env r c
      = (c, .returned ⟨StatusInternalServerError, .createError (.nicknameExists sec.NickName)⟩) := by
  simp [CreateAccountHandler, createAccount, hm, hbody, hsec, hfind, hdup, IsDuplicateKeyError]

/-- C7, at the failing input. The collection holds an account with the nickname
"bob"; a POST whose body carries the nickname "bob" is answered with status 500,
not 409. Nothing is inserted. -/
theorem CreateAccountHandler_duplicate_nickname_is_500 :
    findOneByNickName bobOnly "bob" = some ⟨1, "Bob", .ofInt 10, "USD", some ⟨"bob", "$2a$10$stored"⟩⟩ ∧
    secondBob.Security = some ⟨"bob", "secret"⟩ ∧
    CreateAccountHandler sampleEnv ⟨MethodPost, some secondBob⟩ bobOnly
      = (bobOnly, .returned ⟨500, .createError (.nicknameExists "bob")⟩) ∧
    (CreateAccountHandler sampleEnv ⟨MethodPost, some secondBob⟩ bobOnly).2
      ≠ .returned ⟨StatusConflict, .createError (.nicknameExists "bob")⟩ := by
  have h := CreateAccountHandler_duplicate_nickname sampleEnv ⟨MethodPost, some secondBob⟩
    bobOnly secondBob ⟨1, "Bob", .ofInt 10, "USD", some ⟨"bob", "$2a$10$stored"⟩⟩ ⟨"bob", "secret"⟩
    rfl rfl rfl rfl rfl
  refine ⟨rfl, rfl, h, ?_⟩
  rw [h]
  simp [StatusInternalServerError, StatusConflict]

/-- C8 as stated fails. Neither account of the request is in the empty
collection, `processPayment` fails with the sender-not-found error, and the
response has status 500, not 404. -/
theorem PaymentHandler_not_found_is_500 :
    ObjectIDFromHex samplePaymentRequest.SenderID = some 1 ∧
    ObjectIDFromHex samplePaymentRequest.ReceiverID = some 2 ∧
    (processPayment noFaults ⟨1, 2, .ofInt 5⟩ []).2
      = some (.transactionFailed (.callback .senderNotFound)) ∧
    PaymentHandler noFaults ⟨MethodPost, some samplePaymentRequest⟩ []
      = ([], ⟨500, .paymentError (.transactionFailed (.callback .senderNotFound))⟩) ∧
    (PaymentHandler noFaults ⟨MethodPost, some samplePaymentRequest⟩ []).2.status
      ≠ StatusNotFound := by
  have h1 : ObjectIDFromHex samplePaymentRequest.SenderID = some 1 := by rfl
  have h2 : ObjectIDFromHex samplePaymentRequest.ReceiverID = some 2 := by rfl
  have h3 : processPayment noFaults ⟨1, 2, .ofInt 5⟩ []
      = ([], some (.transactionFailed (.callback .senderNotFound))) := by
    simp [processPayment, withTransaction, callback, noFaults, findOneByID]
  have h4 : PaymentHandler noFaults ⟨MethodPost, some samplePaymentRequest⟩ []
      = ([], ⟨500, .paymentError (.transactionFailed (.callback .senderNotFound))⟩) := by
    have h5 : samplePaymentRequest.Amount = .ofInt 5 := rfl
    simp [PaymentHandler, h1, h2, h3, h5, StatusInternalServerError]
  refine ⟨h1, h2, ?_, h4, ?_⟩
  · rw [h3]
  · rw [h4]; simp [StatusNotFound]

/-- C8, amended. For a POST request: a body that does not parse, or a sender or
receiver id that is not well-formed hex, gives 400 and leaves the collection as
it was; with a parsed body and well-formed ids, success of `processPayment`
gives 200 with its collection, and every failure of `processPayment` gives 500
with the collection unchanged (an absent sender or receiver and insufficient
funds included). -/
theorem PaymentHandler_status (f : Faults) (r : Request PaymentRequest) (c : Collection)
    (hm : r.Method = MethodPost) :
    (r.Body = none → PaymentHandler f r c = (c, ⟨400, .text "Cannot parse JSON"⟩)) ∧
    (∀ pr, r.Body = some pr →
      (ObjectIDFromHex pr.SenderID = none ∨ ObjectIDFromHex pr.ReceiverID = none) →
      (PaymentHandler f r c).1 = c ∧ (PaymentHandler f r c).2.status = 400) ∧
    (∀ pr sid rid, r.Body = some pr → ObjectIDFromHex pr.SenderID = some sid →
      ObjectIDFromHex pr.ReceiverID = some rid →
      ((processPayment f ⟨sid, rid, pr.Amount⟩ c).2 = none →
        (PaymentHandler f r c).1 = (processPayment f ⟨sid, rid, pr.Amount⟩ c).1 ∧
        (PaymentHandler f r c).2.status = 200) ∧
      (∀ e, (processPayment f ⟨sid, rid, pr.Amount⟩ c).2 = some e →
        PaymentHandler f r c = (c, ⟨500, .paymentError e⟩))) := by
  refine ⟨?_, ?_, ?_⟩
  · intro hb
    simp [PaymentHandler, hm, hb, StatusBadRequest]
  · intro pr hb hbad
    rcases hbad with hbad | hbad
    · simp [PaymentHandler, hm, hb, hbad, StatusBadRequest]
    · rcases hsid : ObjectIDFromHex pr.SenderID with _ | sid <;>
        simp [PaymentHandler, hm, hb, hbad, hsid, StatusBadRequest]
  · intro pr sid rid hb hsid hrid
    constructor
    · intro hok
      rcases hp : processPayment f ⟨sid, rid, pr.Amount⟩ c with ⟨c', _ | e⟩
      · simp [PaymentHandler, hm, hb, hsid, hrid, hp, StatusOK]
      · rw [hp] at hok; simp at hok
    · intro e he
      have hne : (processPayment f ⟨sid, rid, pr.Amount⟩ c).2 ≠ none := by rw [he]; simp
      have hc := processPayment_error_unchanged f _ c hne
      rcases hp : processPayment f ⟨sid, rid, pr.Amount⟩ c with ⟨c', _ | e'⟩
      · rw [hp] at he; simp at he
      · rw [hp] at he hc
        simp at he hc
        simp [PaymentHandler, hm, hb, hsid, hrid, hp, StatusInternalServerError, he, hc]

/-- C8 amended, on the one-account collection: the receiver 2 is absent and the
response is 500. -/
theorem PaymentHandler_status_witness :
    (MethodPost = MethodPost ∧
      (processPayment noFaults ⟨1, 2, .ofInt 5⟩ oneAccount).2
        = some (.transactionFailed (.callback .receiverNotFound))) ∧
    PaymentHandler noFaults ⟨MethodPost, some samplePaymentRequest⟩ oneAccount
      = (oneAccount, ⟨500, .paymentError (.transactionFailed (.callback .receiverNotFound))⟩) :=
  have h : (processPayment noFaults ⟨1, 2, .ofInt 5⟩ oneAccount).2
      = some (.transactionFailed (.callback .receiverNotFound)) := by
    simp [processPayment, withTransaction, callback, noFaults, oneAccount, findOneByID]
  ⟨⟨rfl, h⟩,
    ((PaymentHandler_status noFaults ⟨MethodPost, some samplePaymentRequest⟩ oneAccount rfl).2.2
      samplePaymentRequest 1 2 rfl rfl rfl).2 _ h⟩

/-- C9, at the failing inputs. A body without `_id` and with a free nickname is
answered 201, but the account in the response carries the zero id while the
document inserted carries the fresh id 7. A body without `security` makes the
handler panic on the nickname lookup: no 201, nothing inserted. -/
theorem CreateAccountHandler_response_differs_from_inserted :
    CreateAccountHandler sampleEnv ⟨MethodPost, some annWithoutID⟩ []
      = ([⟨7, "Ann", .ofInt 10, "USD", some ⟨"ann", "$2a$10$hashed"⟩⟩],
         .returned ⟨201, .account ⟨0, "Ann", .ofInt 10, "USD", some ⟨"ann", "$2a$10$hashed"⟩⟩⟩) ∧
    createAccount sampleEnv annWithoutID []
      = .returned ⟨none, [⟨7, "Ann", .ofInt 10, "USD", some ⟨"ann", "$2a$10$hashed"⟩⟩],
          some ⟨7, "Ann", .ofInt 10, "USD", some ⟨"ann", "$2a$10$hashed"⟩⟩, ⟨"ann", "$2a$10$hashed"⟩⟩ ∧
    CreateAccountHandler sampleEnv ⟨MethodPost, some annWithoutSecurity⟩ []
      = ([], .panicked) := by
  refine ⟨?_, ?_, ?_⟩
  · simp [CreateAccountHandler, createAccount, insertOne, sampleEnv, annWithoutID, MethodPost,
      findOneByNickName, ObjectID.IsZero, StatusCreated]
  · simp [createAccount, insertOne, sampleEnv, annWithoutID, findOneByNickName,
      ObjectID.IsZero]
  · simp [CreateAccountHandler, createAccount, annWithoutSecurity, MethodPost]

/-- A body with an id, a `security` object and a free nickname: when the handler
answers 201, the account in the response is the document inserted, and the
collection is the old one followed by that document. -/
theorem CreateAccountHandler_created_with_id (env : Env) (r : Request Account)
    (c c' : Collection) (account : Account) (b : ResponseBody)
    (hbody : r.Body = some account) (hid : account.ID ≠ 0)
    (h : CreateAccountHandler env r c = (c', .returned ⟨StatusCreated, b⟩)) :
    ∃ doc, b = .account doc ∧ c' = c ++ [doc] ∧
      ∃ res, createAccount env account c = .returned res ∧ res.inserted = some doc := by
  unfold CreateAccountHandler at h
  by_cases hm : r.Method = MethodPost
  swap
  · simp [hm, StatusMethodNotAllowed, StatusCreated] at h
  simp only [hm, hbody, ne_eq, not_true_eq_false, if_false] at h
  unfold createAccount at h ⊢
  rcases hsec : account.Security with _ | sec
  · simp [hsec] at h
  simp only [hsec] at h ⊢
  by_cases hf : env.faults.findNickName = true
  · simp [hf, IsDuplicateKeyError, StatusInternalServerError, StatusCreated] at h
  simp only [hf] at h ⊢
  rcases hn : findOneByNickName c sec.NickName with _ | x
  swap
  · simp [hn, IsDuplicateKeyError, StatusInternalServerError, StatusCreated] at h
  simp only [hn] at h ⊢
  rcases hh : env.GenerateFromPassword sec.Password with _ | hashed
  · simp [hh, IsDuplicateKeyError, StatusInternalServerError, StatusCreated] at h
  simp only [hh] at h ⊢
  have hz : ObjectID.IsZero account.ID = false := by simp [ObjectID.IsZero, hid]
  simp only [hz] at h ⊢
  unfold insertOne at h ⊢
  by_cases hi : env.faults.insertOne = true
  · simp [hi, IsDuplicateKeyError, StatusInternalServerError, StatusCreated] at h
  by_cases hd : (c.any fun a => decide (a.ID = account.ID)) = true
  · simp [hi, hd, IsDuplicateKeyError, StatusConflict, StatusCreated] at h
  simp [hi, hd] at h ⊢
  obtain ⟨h1, h2⟩ := h
  simp [hi, hd, ← h1, ← h2]

end Banking
